import Mathlib

/-!
Verification of the token-cost accounting model of the
gitops-x-generate repository.

The repository holds two cost calculators:

* ClaudeAPITester._calculate_costs (src/scripts/simple_claude_api.py,
  lines 273-311): takes a model name and a usage record with the four
  token counts input_tokens, output_tokens, cache_creation_input_tokens
  and cache_read_input_tokens, looks the model up in the pricing table
  self.pricing, and either returns a cost breakdown or returns a dict
  holding only an error message when the model is unknown.

* XPostGeneratorWithCache._calculate_costs
  (src/scripts/generate_posts_with_cache.py, lines 287-364; the copy in
  src/scripts/dummy.py, lines 381-458, is textually identical): takes a
  dict of input-token fields (cached_tokens, non_cached_tokens,
  total_input_tokens), an output token count, and reads the instance
  state self.cache_enabled and self.pricing; it returns a breakdown with
  savings fields.

Instance state (self.pricing, self.cache_enabled) is passed explicitly.
Python ints are modelled as Int; the float arithmetic of the source is
modelled exactly over the rationals, every operation being a product, a
sum, a difference or a division by a nonzero constant.
-/

/-- A per-model price table: the four rates held by the pricing dicts of
both scripts (per million tokens). -/
structure Pricing where
  input_per_million : ℚ
  output_per_million : ℚ
  cache_write_per_million : ℚ
  cache_read_per_million : ℚ
deriving DecidableEq

namespace XPostGeneratorWithCache

/-- The input-token fields read by _calculate_costs out of the dict that
_simulate_api_call builds (generate_posts_with_cache.py, lines 252-262):
cached_tokens, non_cached_tokens and total_input_tokens. -/
structure InputTokens where
  cached_tokens : ℤ
  non_cached_tokens : ℤ
  total_input_tokens : ℤ
deriving DecidableEq

/-- The breakdown returned by _calculate_costs
(generate_posts_with_cache.py, lines 347-364). -/
structure CacheCosts where
  cache_cost : ℚ
  input_cost : ℚ
  output_cost : ℚ
  total_cost : ℚ
  total_cost_jpy : ℚ
  cost_without_cache : ℚ
  cost_reduction : ℚ
  cost_reduction_percent : ℚ
  monthly_savings_usd : ℚ
  yearly_savings_usd : ℚ
  monthly_savings_jpy : ℚ
  yearly_savings_jpy : ℚ
deriving DecidableEq

/-- self.pricing as set in the constructor
(generate_posts_with_cache.py, lines 92-97). -/
def pricing : Pricing :=
  { input_per_million := 3.00
    output_per_million := 15.00
    cache_write_per_million := 3.75
    cache_read_per_million := 0.30 }

/-- self.estimated_cache_tokens (generate_posts_with_cache.py, line 101). -/
def estimated_cache_tokens : ℤ := 20000

/-- XPostGeneratorWithCache._calculate_costs
(generate_posts_with_cache.py, lines 287-364; identical in dummy.py,
lines 381-458). cache_enabled and pricing stand for the instance state
self.cache_enabled and self.pricing. -/
def calculate_costs (cache_enabled : Bool) (pricing : Pricing)
    (input_tokens : InputTokens) (output_tokens : ℤ) : CacheCosts :=
  let cache_cost : ℚ :=
    if cache_enabled then
      (input_tokens.cached_tokens : ℚ) * pricing.cache_read_per_million / 1000000
    else 0
  let input_cost : ℚ :=
    if cache_enabled then
      (input_tokens.non_cached_tokens : ℚ) * pricing.input_per_million / 1000000
    else
      (input_tokens.total_input_tokens : ℚ) * pricing.input_per_million / 1000000
  let output_cost : ℚ :=
    (output_tokens : ℚ) * pricing.output_per_million / 1000000
  let total_cost : ℚ := cache_cost + input_cost + output_cost
  let cost_without_cache : ℚ :=
    (input_tokens.total_input_tokens : ℚ) * pricing.input_per_million / 1000000
      + output_cost
  let cost_reduction : ℚ :=
    if cache_enabled then cost_without_cache - total_cost else 0
  let cost_reduction_percent : ℚ :=
    if cost_without_cache > 0 then cost_reduction / cost_without_cache * 100 else 0
  let monthly_savings : ℚ := cost_reduction * 50
  let yearly_savings : ℚ := monthly_savings * 12
  { cache_cost := cache_cost
    input_cost := input_cost
    output_cost := output_cost
    total_cost := total_cost
    total_cost_jpy := total_cost * 150
    cost_without_cache := cost_without_cache
    cost_reduction := cost_reduction
    cost_reduction_percent := cost_reduction_percent
    monthly_savings_usd := monthly_savings
    yearly_savings_usd := yearly_savings
    monthly_savings_jpy := monthly_savings * 150
    yearly_savings_jpy := yearly_savings * 150 }

end XPostGeneratorWithCache

namespace ClaudeAPITester

/-- The four token counts of one usage record, as extracted by
_extract_metadata (simple_claude_api.py, lines 258-265). -/
structure Usage where
  input_tokens : ℤ
  output_tokens : ℤ
  cache_creation_input_tokens : ℤ
  cache_read_input_tokens : ℤ
deriving DecidableEq

/-- The breakdown returned by ClaudeAPITester._calculate_costs on the
success path (simple_claude_api.py, lines 304-311). -/
structure Costs where
  input_cost : ℚ
  output_cost : ℚ
  cache_write_cost : ℚ
  cache_read_cost : ℚ
  total_cost : ℚ
  total_cost_jpy : ℚ
deriving DecidableEq

/-- The two possible returns of ClaudeAPITester._calculate_costs: a
normal breakdown, or the dict holding only an error message that line
285 of simple_claude_api.py returns for an unknown model. Both are
ordinary return values; the function body holds no raise statement. -/
inductive CostsResult where
  | ok (c : Costs)
  | errorDict (msg : String)
deriving DecidableEq

/-- self.pricing as set in the constructor
(simple_claude_api.py, lines 53-72): a dict from model name to rates,
modelled as a partial map. -/
def pricing : String → Option Pricing := fun model =>
  if model = "claude-3-7-sonnet-20241022" then
    some { input_per_million := 3.00
           output_per_million := 15.00
           cache_write_per_million := 3.75
           cache_read_per_million := 0.30 }
  else if model = "claude-3-5-sonnet-20241022" then
    some { input_per_million := 3.00
           output_per_million := 15.00
           cache_write_per_million := 3.75
           cache_read_per_million := 0.30 }
  else if model = "claude-3-5-haiku-20241022" then
    some { input_per_million := 0.80
           output_per_million := 4.00
           cache_write_per_million := 1.00
           cache_read_per_million := 0.08 }
  else none

/-- The arithmetic of ClaudeAPITester._calculate_costs after the price
lookup succeeded (simple_claude_api.py, lines 287-311). -/
def costs_from_prices (prices : Pricing) (usage : Usage) : Costs :=
  let input_cost : ℚ :=
    (usage.input_tokens : ℚ) * prices.input_per_million / 1000000
  let output_cost : ℚ :=
    (usage.output_tokens : ℚ) * prices.output_per_million / 1000000
  let cache_write_cost : ℚ :=
    (usage.cache_creation_input_tokens : ℚ) * prices.cache_write_per_million / 1000000
  let cache_read_cost : ℚ :=
    (usage.cache_read_input_tokens : ℚ) * prices.cache_read_per_million / 1000000
  let total_cost : ℚ := input_cost + output_cost + cache_write_cost + cache_read_cost
  { input_cost := input_cost
    output_cost := output_cost
    cache_write_cost := cache_write_cost
    cache_read_cost := cache_read_cost
    total_cost := total_cost
    total_cost_jpy := total_cost * 150 }

/-- ClaudeAPITester._calculate_costs (simple_claude_api.py, lines
273-311). The pricing table stands for the instance state self.pricing. -/
def calculate_costs (pricing : String → Option Pricing) (model : String)
    (usage : Usage) : CostsResult :=
  match pricing model with
  | none => .errorDict ("Unknown model: " ++ model)
  | some prices => .ok (costs_from_prices prices usage)

end ClaudeAPITester

/-- C3: for the sonnet prices and the cache-enabled usage of the
concrete scenario — input_tokens 19000 (the non-cached tokens),
output_tokens 2000, cache_creation_input_tokens 0,
cache_read_input_tokens 20000 (the cached tokens), so the total input is
19000 + 0 + 20000 = 39000 — the generator calculator returns
cache read cost 0.006, input cost 0.057, output cost 0.03, total cost
0.093, cost without cache 0.147, cost reduction 0.054, and a cost
reduction percent of 1800/49, approximately 36.7. -/
theorem C3_concrete_scenario :
    (XPostGeneratorWithCache.calculate_costs true XPostGeneratorWithCache.pricing
      { cached_tokens := 20000, non_cached_tokens := 19000,
        total_input_tokens := 39000 } 2000).cache_cost = 0.006
    ∧ (XPostGeneratorWithCache.calculate_costs true XPostGeneratorWithCache.pricing
      { cached_tokens := 20000, non_cached_tokens := 19000,
        total_input_tokens := 39000 } 2000).input_cost = 0.057
    ∧ (XPostGeneratorWithCache.calculate_costs true XPostGeneratorWithCache.pricing
      { cached_tokens := 20000, non_cached_tokens := 19000,
        total_input_tokens := 39000 } 2000).output_cost = 0.03
    ∧ (XPostGeneratorWithCache.calculate_costs true XPostGeneratorWithCache.pricing
      { cached_tokens := 20000, non_cached_tokens := 19000,
        total_input_tokens := 39000 } 2000).total_cost = 0.093
    ∧ (XPostGeneratorWithCache.calculate_costs true XPostGeneratorWithCache.pricing
      { cached_tokens := 20000, non_cached_tokens := 19000,
        total_input_tokens := 39000 } 2000).cost_without_cache = 0.147
    ∧ (XPostGeneratorWithCache.calculate_costs true XPostGeneratorWithCache.pricing
      { cached_tokens := 20000, non_cached_tokens := 19000,
        total_input_tokens := 39000 } 2000).cost_reduction = 0.054
    ∧ (XPostGeneratorWithCache.calculate_costs true XPostGeneratorWithCache.pricing
      { cached_tokens := 20000, non_cached_tokens := 19000,
        total_input_tokens := 39000 } 2000).cost_reduction_percent = 1800 / 49
    ∧ (36.7 : ℚ) < (XPostGeneratorWithCache.calculate_costs true
        XPostGeneratorWithCache.pricing
      { cached_tokens := 20000, non_cached_tokens := 19000,
        total_input_tokens := 39000 } 2000).cost_reduction_percent
    ∧ (XPostGeneratorWithCache.calculate_costs true XPostGeneratorWithCache.pricing
      { cached_tokens := 20000, non_cached_tokens := 19000,
        total_input_tokens := 39000 } 2000).cost_reduction_percent < 36.8 := by
  norm_num [XPostGeneratorWithCache.calculate_costs, XPostGeneratorWithCache.pricing]

/-- Nonnegativity of one token-cost term: a nonnegative token count
times a nonnegative per-million rate, divided by 1000000. -/
theorem token_cost_nonneg (t : ℤ) (p : ℚ) (ht : 0 ≤ t) (hp : 0 ≤ p) :
    0 ≤ (t : ℚ) * p / 1000000 :=
  div_nonneg (mul_nonneg (by exact_mod_cast ht) hp) (by norm_num)

/-- C1: with caching in effect, the per-component results are
cache_read_cost = cache_read_input_tokens * cache_read rate / 1000000,
cache_write_cost = cache_creation_input_tokens * cache_write rate / 1000000,
and input_cost = input_tokens * input rate / 1000000, the input tokens
being only the genuinely non-cached ones. The tester calculator computes
all three components this way for every usage; the generator calculator,
whose usage dict carries the cached and non-cached counts directly and
has no cache-write component, computes its cache read cost and its input
cost this way when cache_enabled is true. -/
theorem C1_cache_enabled_components (prices : Pricing) (u : ClaudeAPITester.Usage)
    (tk : XPostGeneratorWithCache.InputTokens) (o : ℤ) :
    (ClaudeAPITester.costs_from_prices prices u).cache_read_cost
        = (u.cache_read_input_tokens : ℚ) * prices.cache_read_per_million / 1000000
    ∧ (ClaudeAPITester.costs_from_prices prices u).cache_write_cost
        = (u.cache_creation_input_tokens : ℚ) * prices.cache_write_per_million / 1000000
    ∧ (ClaudeAPITester.costs_from_prices prices u).input_cost
        = (u.input_tokens : ℚ) * prices.input_per_million / 1000000
    ∧ (XPostGeneratorWithCache.calculate_costs true prices tk o).cache_cost
        = (tk.cached_tokens : ℚ) * prices.cache_read_per_million / 1000000
    ∧ (XPostGeneratorWithCache.calculate_costs true prices tk o).input_cost
        = (tk.non_cached_tokens : ℚ) * prices.input_per_million / 1000000 :=
  ⟨rfl, rfl, rfl, rfl, rfl⟩

/-- C2: for nonnegative token counts and a nonnegative price table, the
total cost equals the exact sum of the components and is nonnegative.
The tester breakdown sums its four components
cache_read_cost + cache_write_cost + input_cost + output_cost; the
generator breakdown, which has no cache-write component, sums its three,
under either value of cache_enabled. -/
theorem C2_total_is_sum_and_nonneg (prices : Pricing) (u : ClaudeAPITester.Usage)
    (tk : XPostGeneratorWithCache.InputTokens) (o : ℤ) (e : Bool)
    (hui : 0 ≤ u.input_tokens) (huo : 0 ≤ u.output_tokens)
    (huw : 0 ≤ u.cache_creation_input_tokens) (hur : 0 ≤ u.cache_read_input_tokens)
    (hti : 0 ≤ tk.cached_tokens) (htn : 0 ≤ tk.non_cached_tokens)
    (htt : 0 ≤ tk.total_input_tokens) (hto : 0 ≤ o)
    (hpi : 0 ≤ prices.input_per_million) (hpo : 0 ≤ prices.output_per_million)
    (hpw : 0 ≤ prices.cache_write_per_million) (hpr : 0 ≤ prices.cache_read_per_million) :
    (ClaudeAPITester.costs_from_prices prices u).total_cost
        = (ClaudeAPITester.costs_from_prices prices u).cache_read_cost
          + (ClaudeAPITester.costs_from_prices prices u).cache_write_cost
          + (ClaudeAPITester.costs_from_prices prices u).input_cost
          + (ClaudeAPITester.costs_from_prices prices u).output_cost
    ∧ 0 ≤ (ClaudeAPITester.costs_from_prices prices u).total_cost
    ∧ (XPostGeneratorWithCache.calculate_costs e prices tk o).total_cost
        = (XPostGeneratorWithCache.calculate_costs e prices tk o).cache_cost
          + (XPostGeneratorWithCache.calculate_costs e prices tk o).input_cost
          + (XPostGeneratorWithCache.calculate_costs e prices tk o).output_cost
    ∧ 0 ≤ (XPostGeneratorWithCache.calculate_costs e prices tk o).total_cost := by
  have hcache : 0 ≤ (XPostGeneratorWithCache.calculate_costs e prices tk o).cache_cost := by
    cases e
    · exact le_rfl
    · exact token_cost_nonneg _ _ hti hpr
  have hinput : 0 ≤ (XPostGeneratorWithCache.calculate_costs e prices tk o).input_cost := by
    cases e
    · exact token_cost_nonneg _ _ htt hpi
    · exact token_cost_nonneg _ _ htn hpi
  have houtput : 0 ≤ (XPostGeneratorWithCache.calculate_costs e prices tk o).output_cost :=
    token_cost_nonneg _ _ hto hpo
  refine ⟨by simp only [ClaudeAPITester.costs_from_prices]; ring, ?_, rfl, ?_⟩
  · exact add_nonneg (add_nonneg (add_nonneg (token_cost_nonneg _ _ hui hpi)
      (token_cost_nonneg _ _ huo hpo)) (token_cost_nonneg _ _ huw hpw))
      (token_cost_nonneg _ _ hur hpr)
  · exact add_nonneg (add_nonneg hcache hinput) houtput

/-- C2 witness: the theorem applied at the sonnet prices and the
concrete usage of the cached scenario, with cache_enabled true. -/
theorem C2_total_is_sum_and_nonneg_witness :
    (ClaudeAPITester.costs_from_prices
        { input_per_million := 3, output_per_million := 15,
          cache_write_per_million := 3.75, cache_read_per_million := 0.30 }
        { input_tokens := 19000, output_tokens := 2000,
          cache_creation_input_tokens := 0, cache_read_input_tokens := 20000 }).total_cost
        = (ClaudeAPITester.costs_from_prices
        { input_per_million := 3, output_per_million := 15,
          cache_write_per_million := 3.75, cache_read_per_million := 0.30 }
        { input_tokens := 19000, output_tokens := 2000,
          cache_creation_input_tokens := 0, cache_read_input_tokens := 20000 }).cache_read_cost
          + (ClaudeAPITester.costs_from_prices
        { input_per_million := 3, output_per_million := 15,
          cache_write_per_million := 3.75, cache_read_per_million := 0.30 }
        { input_tokens := 19000, output_tokens := 2000,
          cache_creation_input_tokens := 0, cache_read_input_tokens := 20000 }).cache_write_cost
          + (ClaudeAPITester.costs_from_prices
        { input_per_million := 3, output_per_million := 15,
          cache_write_per_million := 3.75, cache_read_per_million := 0.30 }
        { input_tokens := 19000, output_tokens := 2000,
          cache_creation_input_tokens := 0, cache_read_input_tokens := 20000 }).input_cost
          + (ClaudeAPITester.costs_from_prices
        { input_per_million := 3, output_per_million := 15,
          cache_write_per_million := 3.75, cache_read_per_million := 0.30 }
        { input_tokens := 19000, output_tokens := 2000,
          cache_creation_input_tokens := 0, cache_read_input_tokens := 20000 }).output_cost
    ∧ 0 ≤ (ClaudeAPITester.costs_from_prices
        { input_per_million := 3, output_per_million := 15,
          cache_write_per_million := 3.75, cache_read_per_million := 0.30 }
        { input_tokens := 19000, output_tokens := 2000,
          cache_creation_input_tokens := 0, cache_read_input_tokens := 20000 }).total_cost
    ∧ (XPostGeneratorWithCache.calculate_costs true
        { input_per_million := 3, output_per_million := 15,
          cache_write_per_million := 3.75, cache_read_per_million := 0.30 }
        { cached_tokens := 20000, non_cached_tokens := 19000,
          total_input_tokens := 39000 } 2000).total_cost
        = (XPostGeneratorWithCache.calculate_costs true
        { input_per_million := 3, output_per_million := 15,
          cache_write_per_million := 3.75, cache_read_per_million := 0.30 }
        { cached_tokens := 20000, non_cached_tokens := 19000,
          total_input_tokens := 39000 } 2000).cache_cost
          + (XPostGeneratorWithCache.calculate_costs true
        { input_per_million := 3, output_per_million := 15,
          cache_write_per_million := 3.75, cache_read_per_million := 0.30 }
        { cached_tokens := 20000, non_cached_tokens := 19000,
          total_input_tokens := 39000 } 2000).input_cost
          + (XPostGeneratorWithCache.calculate_costs true
        { input_per_million := 3, output_per_million := 15,
          cache_write_per_million := 3.75, cache_read_per_million := 0.30 }
        { cached_tokens := 20000, non_cached_tokens := 19000,
          total_input_tokens := 39000 } 2000).output_cost
    ∧ 0 ≤ (XPostGeneratorWithCache.calculate_costs true
        { input_per_million := 3, output_per_million := 15,
          cache_write_per_million := 3.75, cache_read_per_million := 0.30 }
        { cached_tokens := 20000, non_cached_tokens := 19000,
          total_input_tokens := 39000 } 2000).total_cost :=
  C2_total_is_sum_and_nonneg
    { input_per_million := 3, output_per_million := 15,
      cache_write_per_million := 3.75, cache_read_per_million := 0.30 }
    { input_tokens := 19000, output_tokens := 2000,
      cache_creation_input_tokens := 0, cache_read_input_tokens := 20000 }
    { cached_tokens := 20000, non_cached_tokens := 19000,
      total_input_tokens := 39000 } 2000 true
    (by decide) (by decide) (by decide) (by decide)
    (by decide) (by decide) (by decide) (by decide)
    (by norm_num) (by norm_num) (by norm_num) (by norm_num)

/-- C4: with cache_enabled false, the generator calculator charges no
cache read cost and charges the full input rate on the whole input. The
total_input_tokens field is instantiated to the sum of the three token
categories input + cache_creation + cache_read, the cached_tokens field
carrying the cache-read count and the non_cached_tokens field the
genuinely non-cached input; the false branch reads only the total. The
breakdown of this calculator carries no cache-write component at all, so
the only cache component, cache_cost, is 0 and the total is exactly the
full-rate input charge plus the output cost. -/
theorem C4_cache_disabled_total (i w r o : ℤ) (prices : Pricing) :
    (XPostGeneratorWithCache.calculate_costs false prices
        { cached_tokens := r, non_cached_tokens := i,
          total_input_tokens := i + w + r } o).cache_cost = 0
    ∧ (XPostGeneratorWithCache.calculate_costs false prices
        { cached_tokens := r, non_cached_tokens := i,
          total_input_tokens := i + w + r } o).total_cost
        = ((i : ℚ) + (w : ℚ) + (r : ℚ)) * prices.input_per_million / 1000000
          + (XPostGeneratorWithCache.calculate_costs false prices
            { cached_tokens := r, non_cached_tokens := i,
              total_input_tokens := i + w + r } o).output_cost := by
  refine ⟨rfl, ?_⟩
  show (0 : ℚ) + ((i + w + r : ℤ) : ℚ) * prices.input_per_million / 1000000
      + (o : ℚ) * prices.output_per_million / 1000000
    = ((i : ℚ) + (w : ℚ) + (r : ℚ)) * prices.input_per_million / 1000000
      + (o : ℚ) * prices.output_per_million / 1000000
  push_cast
  ring

/-- C5: with cache_enabled true, the generator calculator returns
cost_without_cache = (input + cache_creation + cache_read tokens) *
input rate / 1000000 + output_cost, cost_reduction = cost_without_cache
- total_cost, cost_reduction_percent = cost_reduction /
cost_without_cache * 100 when cost_without_cache > 0 and 0 otherwise,
monthly_savings = cost_reduction * 50 and yearly_savings =
monthly_savings * 12. The total_input_tokens field is instantiated to
the sum of the three token categories. -/
theorem C5_savings_fields (i w r o : ℤ) (prices : Pricing) :
    (XPostGeneratorWithCache.calculate_costs true prices
        { cached_tokens := r, non_cached_tokens := i,
          total_input_tokens := i + w + r } o).cost_without_cache
        = ((i : ℚ) + (w : ℚ) + (r : ℚ)) * prices.input_per_million / 1000000
          + (XPostGeneratorWithCache.calculate_costs true prices
            { cached_tokens := r, non_cached_tokens := i,
              total_input_tokens := i + w + r } o).output_cost
    ∧ (XPostGeneratorWithCache.calculate_costs true prices
        { cached_tokens := r, non_cached_tokens := i,
          total_input_tokens := i + w + r } o).cost_reduction
        = (XPostGeneratorWithCache.calculate_costs true prices
            { cached_tokens := r, non_cached_tokens := i,
              total_input_tokens := i + w + r } o).cost_without_cache
          - (XPostGeneratorWithCache.calculate_costs true prices
            { cached_tokens := r, non_cached_tokens := i,
              total_input_tokens := i + w + r } o).total_cost
    ∧ (XPostGeneratorWithCache.calculate_costs true prices
        { cached_tokens := r, non_cached_tokens := i,
          total_input_tokens := i + w + r } o).cost_reduction_percent
        = (if (XPostGeneratorWithCache.calculate_costs true prices
              { cached_tokens := r, non_cached_tokens := i,
                total_input_tokens := i + w + r } o).cost_without_cache > 0 then
            (XPostGeneratorWithCache.calculate_costs true prices
              { cached_tokens := r, non_cached_tokens := i,
                total_input_tokens := i + w + r } o).cost_reduction
              / (XPostGeneratorWithCache.calculate_costs true prices
                { cached_tokens := r, non_cached_tokens := i,
                  total_input_tokens := i + w + r } o).cost_without_cache * 100
          else 0)
    ∧ (XPostGeneratorWithCache.calculate_costs true prices
        { cached_tokens := r, non_cached_tokens := i,
          total_input_tokens := i + w + r } o).monthly_savings_usd
        = (XPostGeneratorWithCache.calculate_costs true prices
            { cached_tokens := r, non_cached_tokens := i,
              total_input_tokens := i + w + r } o).cost_reduction * 50
    ∧ (XPostGeneratorWithCache.calculate_costs true prices
        { cached_tokens := r, non_cached_tokens := i,
          total_input_tokens := i + w + r } o).yearly_savings_usd
        = (XPostGeneratorWithCache.calculate_costs true prices
            { cached_tokens := r, non_cached_tokens := i,
              total_input_tokens := i + w + r } o).monthly_savings_usd * 12 := by
  refine ⟨?_, rfl, rfl, rfl, rfl⟩
  show ((i + w + r : ℤ) : ℚ) * prices.input_per_million / 1000000
      + (o : ℚ) * prices.output_per_million / 1000000
    = ((i : ℚ) + (w : ℚ) + (r : ℚ)) * prices.input_per_million / 1000000
      + (o : ℚ) * prices.output_per_million / 1000000
  push_cast
  ring

/-- C8: the all-zero usage yields the all-zero breakdown under any price
table and either value of cache_enabled, without any failure: both
calculators are total functions, and the zero-guard on
cost_without_cache > 0 makes cost_reduction_percent exactly 0. -/
theorem C8_zero_usage_all_zero (prices : Pricing) (e : Bool) :
    XPostGeneratorWithCache.calculate_costs e prices
        { cached_tokens := 0, non_cached_tokens := 0, total_input_tokens := 0 } 0
      = { cache_cost := 0, input_cost := 0, output_cost := 0, total_cost := 0,
          total_cost_jpy := 0, cost_without_cache := 0, cost_reduction := 0,
          cost_reduction_percent := 0, monthly_savings_usd := 0,
          yearly_savings_usd := 0, monthly_savings_jpy := 0, yearly_savings_jpy := 0 }
    ∧ ClaudeAPITester.costs_from_prices prices
        { input_tokens := 0, output_tokens := 0, cache_creation_input_tokens := 0,
          cache_read_input_tokens := 0 }
      = { input_cost := 0, output_cost := 0, cache_write_cost := 0,
          cache_read_cost := 0, total_cost := 0, total_cost_jpy := 0 } := by
  constructor
  · cases e <;>
      norm_num [XPostGeneratorWithCache.calculate_costs,
        XPostGeneratorWithCache.CacheCosts.mk.injEq]
  · norm_num [ClaudeAPITester.costs_from_prices, ClaudeAPITester.Costs.mk.injEq]

/-- C9: with nothing cached — cache_read and cache_creation counts both
0, so cached_tokens is 0 and total_input_tokens is i + 0 + 0 — the total
cost with cache_enabled true equals the total cost with cache_enabled
false on the same usage. -/
theorem C9_nothing_cached_same_total (i o : ℤ) (prices : Pricing) :
    (XPostGeneratorWithCache.calculate_costs true prices
        { cached_tokens := 0, non_cached_tokens := i,
          total_input_tokens := i + 0 + 0 } o).total_cost
      = (XPostGeneratorWithCache.calculate_costs false prices
        { cached_tokens := 0, non_cached_tokens := i,
          total_input_tokens := i + 0 + 0 } o).total_cost := by
  show (0 : ℚ) * prices.cache_read_per_million / 1000000
        + (i : ℚ) * prices.input_per_million / 1000000
        + (o : ℚ) * prices.output_per_million / 1000000
      = 0 + ((i + 0 + 0 : ℤ) : ℚ) * prices.input_per_million / 1000000
        + (o : ℚ) * prices.output_per_million / 1000000
  push_cast
  ring

/-- C10: with cache_enabled false, the generator calculator still
populates every counterfactual and savings field: cost_without_cache
equals total_cost, and cost_reduction, cost_reduction_percent,
monthly_savings and yearly_savings are all exactly 0. -/
theorem C10_disabled_savings_zero (tk : XPostGeneratorWithCache.InputTokens)
    (o : ℤ) (prices : Pricing) :
    (XPostGeneratorWithCache.calculate_costs false prices tk o).cost_without_cache
        = (XPostGeneratorWithCache.calculate_costs false prices tk o).total_cost
    ∧ (XPostGeneratorWithCache.calculate_costs false prices tk o).cost_reduction = 0
    ∧ (XPostGeneratorWithCache.calculate_costs false prices tk o).cost_reduction_percent = 0
    ∧ (XPostGeneratorWithCache.calculate_costs false prices tk o).monthly_savings_usd = 0
    ∧ (XPostGeneratorWithCache.calculate_costs false prices tk o).yearly_savings_usd = 0 := by
  refine ⟨?_, rfl, ?_, ?_, ?_⟩ <;>
    simp [XPostGeneratorWithCache.calculate_costs]

/-- C6 counterexample: the claim says a negative token count makes the
calculator fail with an InvalidUsage error and no cost breakdown. The
code performs no validation (simple_claude_api.py, lines 273-311, has no
check on the usage values): at input_tokens = -1 with a known model it
returns a normal breakdown whose input and total costs are negative. -/
theorem C6_counterexample :
    ClaudeAPITester.calculate_costs ClaudeAPITester.pricing
        "claude-3-5-sonnet-20241022"
        { input_tokens := -1, output_tokens := 0, cache_creation_input_tokens := 0,
          cache_read_input_tokens := 0 }
      = .ok { input_cost := -(3 / 1000000), output_cost := 0, cache_write_cost := 0,
              cache_read_cost := 0, total_cost := -(3 / 1000000),
              total_cost_jpy := -(3 / 1000000) * 150 } := by
  norm_num [ClaudeAPITester.calculate_costs, ClaudeAPITester.pricing,
    ClaudeAPITester.costs_from_prices, ClaudeAPITester.CostsResult.ok.injEq,
    ClaudeAPITester.Costs.mk.injEq]

/-- C6 amended: for every usage with at least one negative token count
and every model present in the price table, the calculator does not fail
at all: it returns the ordinary cost breakdown computed by the same
arithmetic, so the affected components simply come out negative. No
InvalidUsage error exists in the code. -/
theorem C6_amended_no_validation (t : String → Option Pricing) (model : String)
    (prices : Pricing) (u : ClaudeAPITester.Usage) (hm : t model = some prices)
    (hneg : u.input_tokens < 0 ∨ u.output_tokens < 0
      ∨ u.cache_creation_input_tokens < 0 ∨ u.cache_read_input_tokens < 0) :
    ClaudeAPITester.calculate_costs t model u
      = .ok (ClaudeAPITester.costs_from_prices prices u) := by
  unfold ClaudeAPITester.calculate_costs
  rw [hm]

/-- C6 amended witness: the amended theorem at the sonnet model and the
usage with input_tokens = -1. -/
theorem C6_amended_no_validation_witness :
    ClaudeAPITester.calculate_costs ClaudeAPITester.pricing
        "claude-3-5-sonnet-20241022"
        { input_tokens := -1, output_tokens := 0, cache_creation_input_tokens := 0,
          cache_read_input_tokens := 0 }
      = .ok (ClaudeAPITester.costs_from_prices
          { input_per_million := 3, output_per_million := 15,
            cache_write_per_million := 3.75, cache_read_per_million := 0.30 }
          { input_tokens := -1, output_tokens := 0, cache_creation_input_tokens := 0,
            cache_read_input_tokens := 0 }) :=
  C6_amended_no_validation ClaudeAPITester.pricing "claude-3-5-sonnet-20241022"
    { input_per_million := 3, output_per_million := 15,
      cache_write_per_million := 3.75, cache_read_per_million := 0.30 }
    { input_tokens := -1, output_tokens := 0, cache_creation_input_tokens := 0,
      cache_read_input_tokens := 0 }
    (by norm_num [ClaudeAPITester.pricing]) (Or.inl (by decide))

/-- C7 counterexample: the claim says an unknown model name makes the
calculator reject the computation by raising an InvalidPriceTable error.
The code raises nothing: line 285 of simple_claude_api.py executes an
ordinary return of the dict holding only the message Unknown model. At
the unknown name gpt-4 the result is exactly that returned error dict —
a normal return value, with no InvalidPriceTable error kind anywhere in
the code. -/
theorem C7_counterexample :
    ClaudeAPITester.calculate_costs ClaudeAPITester.pricing "gpt-4"
        { input_tokens := 0, output_tokens := 0, cache_creation_input_tokens := 0,
          cache_read_input_tokens := 0 }
      = .errorDict "Unknown model: gpt-4" := by
  decide

/-- C7 amended: for every model name that is not a key of the price
table, the calculator returns — not raises — a dict holding only the
descriptive message Unknown model followed by the name, rather than a
normal cost breakdown. -/
theorem C7_amended_unknown_model (t : String → Option Pricing) (model : String)
    (u : ClaudeAPITester.Usage) (hm : t model = none) :
    ClaudeAPITester.calculate_costs t model u
      = .errorDict ("Unknown model: " ++ model) := by
  unfold ClaudeAPITester.calculate_costs
  rw [hm]

/-- C7 amended witness: the amended theorem at the unknown name gpt-4
and a nonzero usage. -/
theorem C7_amended_unknown_model_witness :
    ClaudeAPITester.calculate_costs ClaudeAPITester.pricing "gpt-4"
        { input_tokens := 1000, output_tokens := 100,
          cache_creation_input_tokens := 0, cache_read_input_tokens := 0 }
      = .errorDict ("Unknown model: " ++ "gpt-4") :=
  C7_amended_unknown_model ClaudeAPITester.pricing "gpt-4"
    { input_tokens := 1000, output_tokens := 100,
      cache_creation_input_tokens := 0, cache_read_input_tokens := 0 }
    (by decide)
